import Mathlib

/-!
Shallow embedding of the database-connection module (`connection.ts`) and of
the authentication/session component of the REST API, together with proofs of
the behavioural properties stated in the design document.

The connection module (`createDatabase`, `createTestDatabase`, `getDatabase`)
is modelled directly from the source: filesystem and connection side effects
become an explicit event trace, and the module-level mutable `db` variable
becomes explicit state passing.
-/

namespace ElysiaTest

/-- Decimal digit character, as JS uses when rendering a nonnegative number. -/
def digitCh : Nat → Char
  | 0 => '0'
  | 1 => '1'
  | 2 => '2'
  | 3 => '3'
  | 4 => '4'
  | 5 => '5'
  | 6 => '6'
  | 7 => '7'
  | 8 => '8'
  | 9 => '9'
  | _ => '*'

/-- Decimal rendering of a natural number, as produced by JS template
interpolation of a nonnegative integer such as `Date.now()`. -/
def natDec (n : Nat) : List Char :=
  if _h : n < 10 then [digitCh n]
  else natDec (n / 10) ++ [digitCh (n % 10)]
termination_by n
decreasing_by exact Nat.div_lt_self (by omega) (by omega)

/-- String form of the decimal rendering. -/
def natDecStr (n : Nat) : String := String.mk (natDec n)

/-- `path.resolve(process.cwd(), 'data')` -/
def dataDir (cwd : String) : String := cwd ++ "/data"

/-- `path.resolve(dataDir, 'database.sqlite')` -/
def dbPath (cwd : String) : String := dataDir cwd ++ "/database.sqlite"

/-- `path.resolve(process.cwd(), 'data', 'test')` -/
def testDir (cwd : String) : String := dataDir cwd ++ "/test"

/-- The unique test database path built in `createTestDatabase`:
`test-TIMESTAMP-RANDOM.sqlite` inside the test directory, where TIMESTAMP is
the decimal rendering of `Date.now()` and RANDOM is the random suffix drawn
from `Math.random().toString(36).substring(7)`. -/
def testDbPath (cwd : String) (timestamp : Nat) (random : String) : String :=
  testDir cwd ++ "/test-" ++ natDecStr timestamp ++ "-" ++ random ++ ".sqlite"

/-- Side effects performed by the connection module: directory creation,
opening a SQLite connection on a path, and running migrations against the
database stored at a path. -/
inductive DbEvent where
  | mkdir (dir : String)
  | openConn (path : String)
  | migrate (path : String)
deriving DecidableEq, Repr

/-- The module-level mutable state of `connection.ts`: the singleton
`let db: ... | null = null`.  A handle is identified by a number. -/
structure DbModuleState where
  db : Option Nat
deriving DecidableEq, Repr

/-- The initial module state (`db = null`). -/
def initialState : DbModuleState := ⟨none⟩

/-- Environment observed by one `createDatabase` call: the working directory,
whether the data directory and the migrations directory exist, and the fresh
handle the SQLite driver would return for a newly opened connection. -/
structure DbWorld where
  cwd : String
  dataDirExists : Bool
  migrationsDirExists : Bool
  freshHandle : Nat
deriving DecidableEq, Repr

/-- `createDatabase` from `connection.ts`: if the singleton is already set it
is returned unchanged with no work performed; otherwise the data directory is
created when missing, a connection is opened on `data/database.sqlite`,
migrations run when the migrations directory exists, and the singleton is set.
Returns the handle, the new module state, and the trace of effects. -/
def createDatabase (s : DbModuleState) (w : DbWorld) :
    Nat × DbModuleState × List DbEvent :=
  match s.db with
  | some h => (h, s, [])
  | none =>
    let ev1 := if w.dataDirExists then [] else [DbEvent.mkdir (dataDir w.cwd)]
    let p := dbPath w.cwd
    let ev3 := if w.migrationsDirExists then [DbEvent.migrate p] else []
    (w.freshHandle, ⟨some w.freshHandle⟩, ev1 ++ [DbEvent.openConn p] ++ ev3)

/-- `getDatabase` from `connection.ts`: throws when the singleton is unset,
otherwise returns it. -/
def getDatabase (s : DbModuleState) : Except String Nat :=
  match s.db with
  | none => Except.error "Database not initialized. Call createDatabase() first."
  | some h => Except.ok h

/-- Environment observed by one `createTestDatabase` call. -/
structure TestDbWorld where
  cwd : String
  timestamp : Nat
  random : String
  testDirExists : Bool
  migrationsDirExists : Bool
  freshHandle : Nat
deriving DecidableEq, Repr

/-- `createTestDatabase` from `connection.ts`: builds a unique path from the
timestamp and the random suffix, creates the test directory when missing,
opens a connection on that path, and runs migrations when the migrations
directory exists.  Returns the handle, the storage path of the new database,
and the trace of effects performed before the handle is returned. -/
def createTestDatabase (w : TestDbWorld) : Nat × String × List DbEvent :=
  let ev1 := if w.testDirExists then [] else [DbEvent.mkdir (testDir w.cwd)]
  let p := testDbPath w.cwd w.timestamp w.random
  let ev3 := if w.migrationsDirExists then [DbEvent.migrate p] else []
  (w.freshHandle, p, ev1 ++ [DbEvent.openConn p] ++ ev3)

/-- Runs a sequence of `createDatabase` calls, threading the module state. -/
def runCreateCalls (s : DbModuleState) (ws : List DbWorld) : DbModuleState :=
  ws.foldl (fun s w => (createDatabase s w).2.1) s

/-! ### Properties of the decimal rendering -/

theorem digitCh_inj_lt : ∀ d1 < 10, ∀ d2 < 10, digitCh d1 = digitCh d2 → d1 = d2 := by
  decide

theorem digitCh_ne_hyphen : ∀ d < 10, digitCh d ≠ '-' := by decide

theorem natDec_lt (n : Nat) (h : n < 10) : natDec n = [digitCh n] := by
  rw [natDec]; simp [h]

theorem natDec_ge (n : Nat) (h : ¬ n < 10) :
    natDec n = natDec (n / 10) ++ [digitCh (n % 10)] := by
  rw [natDec]; simp [h]

theorem natDec_ne_nil (n : Nat) : natDec n ≠ [] := by
  by_cases h : n < 10
  · rw [natDec_lt n h]; simp
  · rw [natDec_ge n h]; simp

theorem natDec_no_hyphen (n : Nat) : ∀ c ∈ natDec n, c ≠ '-' := by
  induction n using natDec.induct with
  | case1 n h =>
    rw [natDec_lt n h]
    intro c hc
    simp at hc
    subst hc
    exact digitCh_ne_hyphen n h
  | case2 n h ih =>
    rw [natDec_ge n h]
    intro c hc
    simp at hc
    rcases hc with hc | hc
    · exact ih c hc
    · subst hc; exact digitCh_ne_hyphen _ (Nat.mod_lt _ (by omega))

theorem natDec_inj : ∀ m n : Nat, natDec m = natDec n → m = n := by
  intro m
  induction m using natDec.induct with
  | case1 m hm =>
    intro n h
    by_cases hn : n < 10
    · rw [natDec_lt m hm, natDec_lt n hn] at h
      simp at h
      exact digitCh_inj_lt m hm n hn h
    · exfalso
      rw [natDec_lt m hm, natDec_ge n hn] at h
      cases hnd : natDec (n / 10) with
      | nil => exact natDec_ne_nil _ hnd
      | cons a l => rw [hnd] at h; simp at h
  | case2 m hm ih =>
    intro n h
    by_cases hn : n < 10
    · exfalso
      rw [natDec_ge m hm, natDec_lt n hn] at h
      cases hnd : natDec (m / 10) with
      | nil => exact natDec_ne_nil _ hnd
      | cons a l => rw [hnd] at h; simp at h
    · rw [natDec_ge m hm, natDec_ge n hn] at h
      have h2 := congrArg List.reverse h
      simp [List.reverse_append] at h2
      obtain ⟨hdig, hrev⟩ := h2
      have hdiv : m / 10 = n / 10 := ih _ hrev
      have hmod : m % 10 = n % 10 :=
        digitCh_inj_lt _ (Nat.mod_lt _ (by omega)) _ (Nat.mod_lt _ (by omega)) hdig
      omega

/-- Sample evaluation of the decimal rendering. -/
theorem natDecStr_fifty : natDecStr 50 = "50" := by
  show String.mk (natDec 50) = "50"
  rw [natDec_ge 50 (by omega)]
  norm_num
  rw [natDec_lt 5 (by omega)]
  rfl

theorem natDecStr_data (n : Nat) : (natDecStr n).data = natDec n := rfl

/-- A list of characters followed by a hyphen-headed tail decomposes uniquely
when the prefix is hyphen-free. -/
theorem hyphen_split_inj : ∀ (l1 l2 r1 r2 : List Char), '-' ∉ l1 → '-' ∉ l2 →
    l1 ++ '-' :: r1 = l2 ++ '-' :: r2 → l1 = l2 ∧ r1 = r2 := by
  intro l1
  induction l1 with
  | nil =>
    intro l2 r1 r2 h1 h2 h
    cases l2 with
    | nil => simpa using h
    | cons c l2 =>
      exfalso
      simp at h
      obtain ⟨hc, -⟩ := h
      subst hc
      exact h2 (List.mem_cons_self _ _)
  | cons c l1 ih =>
    intro l2 r1 r2 h1 h2 h
    cases l2 with
    | nil =>
      exfalso
      simp at h
      obtain ⟨hc, -⟩ := h
      subst hc
      exact h1 (List.mem_cons_self _ _)
    | cons d l2 =>
      simp at h
      obtain ⟨hcd, hrest⟩ := h
      have hr := ih l2 r1 r2 (fun hm => h1 (List.mem_cons_of_mem _ hm))
        (fun hm => h2 (List.mem_cons_of_mem _ hm)) hrest
      exact ⟨by simp [hcd, hr.1], hr.2⟩

/-- The test database path determines the timestamp and the random suffix. -/
theorem testDbPath_inj (cwd : String) (t1 t2 : Nat) (r1 r2 : String)
    (h : testDbPath cwd t1 r1 = testDbPath cwd t2 r2) : t1 = t2 ∧ r1 = r2 := by
  have hd := congrArg String.data h
  simp only [testDbPath, String.data_append, natDecStr_data, List.append_assoc] at hd
  simp only [List.cons_append, List.nil_append] at hd
  have hd2 := List.append_cancel_left hd
  simp only [List.cons.injEq, true_and] at hd2
  have hsplit := hyphen_split_inj (natDec t1) (natDec t2) _ _
    (fun hm => natDec_no_hyphen t1 '-' hm rfl)
    (fun hm => natDec_no_hyphen t2 '-' hm rfl) hd2
  refine ⟨natDec_inj _ _ hsplit.1, ?_⟩
  exact String.ext (List.append_cancel_right hsplit.2)

/-! ### Properties of the singleton database state -/

theorem createDatabase_db_some (s : DbModuleState) (w : DbWorld) :
    ((createDatabase s w).2.1).db = some (createDatabase s w).1 := by
  cases h : s.db <;> simp [createDatabase, h]

theorem createDatabase_of_db_some (s : DbModuleState) (w : DbWorld) (a : Nat)
    (h : s.db = some a) : createDatabase s w = (a, s, []) := by
  simp [createDatabase, h]

theorem runCreateCalls_of_db_some (ws : List DbWorld) (s : DbModuleState) (a : Nat)
    (h : s.db = some a) : runCreateCalls s ws = s := by
  induction ws generalizing s with
  | nil => rfl
  | cons w ws ih =>
    show runCreateCalls (createDatabase s w).2.1 ws = s
    rw [createDatabase_of_db_some s w a h]
    exact ih s h

/-! ### Claims C7 and C8: test database provisioning -/

/-- Claim C7, counterexample: two distinct invocations of the test-database
provisioning that happen to observe the same timestamp and draw the same
random suffix produce the same storage file path, so distinctness does not
hold for every pair of invocations. -/
theorem createTestDatabase_paths_collide :
    (⟨"/app", 5, "abc", true, true, 1⟩ : TestDbWorld) ≠
      (⟨"/app", 5, "abc", true, true, 2⟩ : TestDbWorld) ∧
    (createTestDatabase ⟨"/app", 5, "abc", true, true, 1⟩).2.1 =
      (createTestDatabase ⟨"/app", 5, "abc", true, true, 2⟩).2.1 :=
  ⟨by decide, rfl⟩

/-- Claim C7, amended: for every two invocations of the test-database
provisioning operation in the same working directory, the storage file paths
produced are distinct provided the two invocations observe distinct timestamps
or draw distinct random suffixes. -/
theorem createTestDatabase_paths_distinct (w1 w2 : TestDbWorld)
    (hcwd : w1.cwd = w2.cwd)
    (hne : w1.timestamp ≠ w2.timestamp ∨ w1.random ≠ w2.random) :
    (createTestDatabase w1).2.1 ≠ (createTestDatabase w2).2.1 := by
  intro h
  have h2 : testDbPath w1.cwd w1.timestamp w1.random =
      testDbPath w2.cwd w2.timestamp w2.random := h
  rw [hcwd] at h2
  have h3 := testDbPath_inj _ _ _ _ _ h2
  rcases hne with hne | hne
  · exact hne h3.1
  · exact hne h3.2

theorem createTestDatabase_paths_distinct_witness :
    (⟨"/app", 1, "a", true, true, 0⟩ : TestDbWorld).cwd =
      (⟨"/app", 2, "a", true, true, 0⟩ : TestDbWorld).cwd ∧
    ((⟨"/app", 1, "a", true, true, 0⟩ : TestDbWorld).timestamp ≠
        (⟨"/app", 2, "a", true, true, 0⟩ : TestDbWorld).timestamp ∨
      (⟨"/app", 1, "a", true, true, 0⟩ : TestDbWorld).random ≠
        (⟨"/app", 2, "a", true, true, 0⟩ : TestDbWorld).random) ∧
    (createTestDatabase ⟨"/app", 1, "a", true, true, 0⟩).2.1 ≠
      (createTestDatabase ⟨"/app", 2, "a", true, true, 0⟩).2.1 :=
  ⟨rfl, Or.inl (by decide),
    createTestDatabase_paths_distinct _ _ rfl (Or.inl (by decide))⟩

/-- Claim C8, counterexample: when the migrations directory does not exist,
`createTestDatabase` performs no migration at all before returning the handle:
the entire effect trace of the call is just the connection opening. -/
theorem createTestDatabase_skips_migrations :
    (⟨"/app", 0, "abc", true, false, 0⟩ : TestDbWorld).migrationsDirExists = false ∧
    (createTestDatabase ⟨"/app", 0, "abc", true, false, 0⟩).2.2 =
      [DbEvent.openConn (testDbPath "/app" 0 "abc")] :=
  ⟨rfl, rfl⟩

/-- Claim C8, amended: for every invocation of the test-database provisioning
operation in an environment where the migrations directory exists, the freshly
created database (at its unique path) has its connection opened during the
call, and running migrations against that same database is the last effect
performed before the handle is returned. -/
theorem createTestDatabase_migrates_before_return (w : TestDbWorld)
    (h : w.migrationsDirExists = true) :
    DbEvent.openConn ((createTestDatabase w).2.1) ∈ (createTestDatabase w).2.2 ∧
    ((createTestDatabase w).2.2).getLast? =
      some (DbEvent.migrate ((createTestDatabase w).2.1)) := by
  cases htd : w.testDirExists <;>
    simp [createTestDatabase, h, htd, List.getLast?_append, List.getLast?]

theorem createTestDatabase_migrates_before_return_witness :
    (⟨"/app", 0, "abc", true, true, 0⟩ : TestDbWorld).migrationsDirExists = true ∧
    (DbEvent.openConn ((createTestDatabase ⟨"/app", 0, "abc", true, true, 0⟩).2.1) ∈
        (createTestDatabase ⟨"/app", 0, "abc", true, true, 0⟩).2.2 ∧
      ((createTestDatabase ⟨"/app", 0, "abc", true, true, 0⟩).2.2).getLast? =
        some (DbEvent.migrate ((createTestDatabase ⟨"/app", 0, "abc", true, true, 0⟩).2.1))) :=
  ⟨rfl, createTestDatabase_migrates_before_return _ rfl⟩

/-! ### Claims C9 and C10: the singleton database handle -/

/-- Claim C9: `createDatabase` is idempotent.  After the first call completes
(and after any number of further calls), every subsequent call returns the
exact same database handle, leaves the module state unchanged, and performs no
initialization work: no directory creation, no connection opening, no
migration run. -/
theorem createDatabase_idempotent (w1 w : DbWorld) (ws : List DbWorld) :
    createDatabase (runCreateCalls ((createDatabase initialState w1).2.1) ws) w =
      ((createDatabase initialState w1).1,
        (createDatabase initialState w1).2.1, []) := by
  have h1 := createDatabase_db_some initialState w1
  rw [runCreateCalls_of_db_some ws _ _ h1]
  exact createDatabase_of_db_some _ w _ h1

/-- Claim C10: starting from the uninitialized module state, `getDatabase`
throws exactly when no `createDatabase` call has completed, and otherwise
returns the very handle the first `createDatabase` call returned. -/
theorem getDatabase_iff_created (ws : List DbWorld) :
    getDatabase (runCreateCalls initialState ws) =
      match ws with
      | [] => Except.error "Database not initialized. Call createDatabase() first."
      | w :: _ => Except.ok (createDatabase initialState w).1 := by
  cases ws with
  | nil => rfl
  | cons w ws =>
    have h1 := createDatabase_db_some initialState w
    show getDatabase (runCreateCalls (createDatabase initialState w).2.1 ws) = _
    rw [runCreateCalls_of_db_some ws _ _ h1]
    simp [getDatabase, h1]

/-! ### The authentication/session component

The route, service and schema sources of the API are not part of the extracted
sources (only their integration tests are), so the component is modelled from
the design document: User and Session records, the Login Handler (§4.1), the
Session Validator (§4.2), user creation with boundary validation (§6, §7), and
the cascading user deletion (§3).
-/

/-- Modelled from the spec: a User identity record with a unique email, a
display name, a securely hashed password, and creation/update timestamps
(Data Model §3). -/
structure User where
  id : Nat
  email : String
  displayName : String
  passwordHash : String
  createdAt : Nat
  updatedAt : Nat
deriving DecidableEq, Repr

/-- Modelled from the spec: a Session record referencing exactly one User,
holding a unique random identifier, an absolute expiry timestamp, and a
creation timestamp (Data Model §3). -/
structure Session where
  id : String
  userId : Nat
  expiresAt : Nat
  createdAt : Nat
deriving DecidableEq, Repr

/-- Modelled from the spec: the User Store and Session Store rows (§4.4). -/
structure Store where
  users : List User
  sessions : List Session
deriving DecidableEq, Repr

/-- Modelled from the spec: the public representation of a User sent in API
responses, as a JSON-like field list — all User attributes except the password
hash (Glossary: public user fields). -/
def publicUserFields (u : User) : List (String × String) :=
  [("id", natDecStr u.id),
   ("email", u.email),
   ("name", u.displayName),
   ("createdAt", natDecStr u.createdAt),
   ("updatedAt", natDecStr u.updatedAt)]

/-- Read a user by unique email (User Store read-by-unique-key, §4.4). -/
def findUserByEmail (store : Store) (email : String) : Option User :=
  store.users.find? (fun u => u.email == email)

/-- Read a user by id (User Store read-by-id, §4.4). -/
def findUserById (store : Store) (uid : Nat) : Option User :=
  store.users.find? (fun u => u.id == uid)

/-- Read a session by its identifier (Session Store lookup, §4.4). -/
def findSession (store : Store) (sid : String) : Option Session :=
  store.sessions.find? (fun s => s.id == sid)

/-- 24 hours in milliseconds: the session lifetime (§4.1). -/
def msPerDay : Nat := 24 * 60 * 60 * 1000

/-- Result of `POST /auth/login`: either a session identifier plus the user's
public fields, or the uniform authentication failure (§4.1, §7). -/
inductive LoginResponse where
  | ok (sessionId : String) (user : List (String × String))
  | unauthorized
deriving DecidableEq, Repr

/-- HTTP status of a login response (§6, §7). -/
def LoginResponse.status : LoginResponse → Nat
  | .ok _ _ => 200
  | .unauthorized => 401

/-- Modelled from the spec: the Login Handler (§4.1).  Looks the User up by
email; if absent, fails with the uniform authentication error.  If found,
verifies the plaintext password against the stored hash with the
runtime-provided primitive `verify`; mismatch fails the same way as absence.
On success, persists a Session whose identifier is the freshly drawn random
`sid` and whose expiry is 24 hours from `now`, and returns the session
identifier plus the User's public fields. -/
def login (verify : String → String → Bool) (now : Nat) (sid : String)
    (store : Store) (email password : String) : LoginResponse × Store :=
  match findUserByEmail store email with
  | none => (.unauthorized, store)
  | some u =>
    if verify password u.passwordHash then
      (.ok sid (publicUserFields u),
        { store with sessions := ⟨sid, u.id, now + msPerDay, now⟩ :: store.sessions })
    else
      (.unauthorized, store)

/-- Result of `POST /auth/validate`: always HTTP 200, an explicit validity
flag, and the owning user's public fields when valid (§4.2, §6). -/
structure ValidateResponse where
  status : Nat
  valid : Bool
  user : Option (List (String × String))
deriving DecidableEq, Repr

/-- Modelled from the spec: the Session Validator (§4.2).  Looks the Session
up; if absent, returns an explicit invalid result rather than an error.  If
present, compares the current time to the expiry; a session is valid only
while the current time is before its expiry (§3).  If valid, loads the
associated User and returns the validity flag plus the public fields. -/
def validateSession (now : Nat) (store : Store) (sid : String) : ValidateResponse :=
  match findSession store sid with
  | none => ⟨200, false, none⟩
  | some s =>
    if now < s.expiresAt then
      match findUserById store s.userId with
      | some u => ⟨200, true, some (publicUserFields u)⟩
      | none => ⟨200, false, none⟩
    else
      ⟨200, false, none⟩

/-- Modelled from the spec: deleting a user cascades to its Sessions — the
foreign key removes every session row referencing the removed User (§3). -/
def deleteUser (store : Store) (uid : Nat) : Store :=
  { users := store.users.filter (fun u => u.id != uid),
    sessions := store.sessions.filter (fun s => s.userId != uid) }

/-- Modelled from the spec: boundary validation of the email format used by
`POST /users` and `POST /auth/login` — a well-formed address has exactly one
`@` with a nonempty local part and a nonempty domain containing a dot (§6:
422 on validation failure, e.g. malformed email). -/
def isValidEmail (e : String) : Bool :=
  let loc := e.data.takeWhile (fun c => c ≠ '@')
  match e.data.dropWhile (fun c => c ≠ '@') with
  | '@' :: domain =>
    !loc.isEmpty && !domain.isEmpty && domain.contains '.' && !domain.contains '@'
  | _ => false

/-- Result of `POST /users`: the created user's public fields, or the
validation failure surfaced at the boundary (§6, §7). -/
inductive CreateUserResponse where
  | ok (user : List (String × String))
  | validationError
deriving DecidableEq, Repr

/-- HTTP status of a create-user response (§6, §7). -/
def CreateUserResponse.status : CreateUserResponse → Nat
  | .ok _ => 200
  | .validationError => 422

/-- Modelled from the spec: the `POST /users` handler.  Validation errors are
surfaced at the boundary before reaching business logic (§7): a malformed
email yields 422 and no record is persisted; otherwise the user is created
with the hashed password and its public fields are returned. -/
def createUser (hash : String → String) (now uid : Nat) (store : Store)
    (email displayName password : String) : CreateUserResponse × Store :=
  if isValidEmail email then
    let u : User := ⟨uid, email, displayName, hash password, now, now⟩
    (.ok (publicUserFields u), { store with users := u :: store.users })
  else
    (.validationError, store)

/-- Concrete fixture: the seeded user of the integration tests. -/
def demoUser : User := ⟨1, "john@example.com", "John Doe", "h:password123", 0, 0⟩

/-- Concrete fixture: a store holding only the seeded user. -/
def demoStore : Store := ⟨[demoUser], []⟩

/-- Concrete fixture: a password-verification primitive matching `demoUser`'s
stored hash. -/
def demoVerify (password stored : String) : Bool := stored == "h:" ++ password

/-! ### Claim C1: successful login -/

/-- Claim C1: for every login request with a correct email/password pair —
the email resolves to a stored user and the password verifies against the
stored hash — the login operation returns the session identifier together
with the user's public fields, and the password hash is absent from the
returned user representation. -/
theorem login_success_returns_session_and_no_hash
    (verify : String → String → Bool) (now : Nat) (sid : String)
    (store : Store) (email password : String) (u : User)
    (hfind : findUserByEmail store email = some u)
    (hverify : verify password u.passwordHash = true) :
    (login verify now sid store email password).1 =
      LoginResponse.ok sid (publicUserFields u) ∧
    (publicUserFields u).all (fun kv => kv.1 != "passwordHash") = true := by
  constructor
  · simp [login, hfind, hverify]
  · simp [publicUserFields]

theorem login_success_witness :
    findUserByEmail demoStore "john@example.com" = some demoUser ∧
    demoVerify "password123" demoUser.passwordHash = true ∧
    ((login demoVerify 0 "sess-1" demoStore "john@example.com" "password123").1 =
        LoginResponse.ok "sess-1" (publicUserFields demoUser) ∧
      (publicUserFields demoUser).all (fun kv => kv.1 != "passwordHash") = true) :=
  ⟨by decide, by decide,
    login_success_returns_session_and_no_hash demoVerify 0 "sess-1" demoStore
      "john@example.com" "password123" demoUser (by decide) (by decide)⟩

/-! ### Claim C2: uniform login failure -/

/-- Claim C2: a login with an unknown email and a login with a known email but
wrong password produce identical responses: both are the uniform 401
authentication failure, carrying no detail distinguishing the two causes. -/
theorem login_failures_indistinguishable
    (verify : String → String → Bool) (now1 now2 : Nat) (sid1 sid2 : String)
    (store : Store) (email1 password1 email2 password2 : String) (u : User)
    (h1 : findUserByEmail store email1 = none)
    (h2 : findUserByEmail store email2 = some u)
    (h3 : verify password2 u.passwordHash = false) :
    (login verify now1 sid1 store email1 password1).1 = LoginResponse.unauthorized ∧
    (login verify now2 sid2 store email2 password2).1 = LoginResponse.unauthorized ∧
    ((login verify now1 sid1 store email1 password1).1).status = 401 ∧
    (login verify now1 sid1 store email1 password1).1 =
      (login verify now2 sid2 store email2 password2).1 := by
  have e1 : (login verify now1 sid1 store email1 password1).1 =
      LoginResponse.unauthorized := by simp [login, h1]
  have e2 : (login verify now2 sid2 store email2 password2).1 =
      LoginResponse.unauthorized := by simp [login, h2, h3]
  exact ⟨e1, e2, by rw [e1]; rfl, by rw [e1, e2]⟩

theorem login_failures_witness :
    findUserByEmail demoStore "nobody@example.com" = none ∧
    findUserByEmail demoStore "john@example.com" = some demoUser ∧
    demoVerify "wrong-password" demoUser.passwordHash = false ∧
    ((login demoVerify 0 "s1" demoStore "nobody@example.com" "pw").1 =
        LoginResponse.unauthorized ∧
      (login demoVerify 0 "s2" demoStore "john@example.com" "wrong-password").1 =
        LoginResponse.unauthorized ∧
      ((login demoVerify 0 "s1" demoStore "nobody@example.com" "pw").1).status = 401 ∧
      (login demoVerify 0 "s1" demoStore "nobody@example.com" "pw").1 =
        (login demoVerify 0 "s2" demoStore "john@example.com" "wrong-password").1) :=
  ⟨by decide, by decide, by decide,
    login_failures_indistinguishable demoVerify 0 0 "s1" "s2" demoStore
      "nobody@example.com" "pw" "john@example.com" "wrong-password" demoUser
      (by decide) (by decide) (by decide)⟩

/-! ### Claim C3: a session validates until its expiry passes -/

/-- Claim C3: a session identifier issued by a successful login validates as
valid with the owning user's public fields whenever the current time is before
the expiry set 24 hours after login, and validates as an explicit invalid
(non-error) result once the current time is at or past that expiry. -/
theorem session_valid_until_expiry
    (verify : String → String → Bool) (now t : Nat) (sid : String)
    (store : Store) (email password : String) (u : User)
    (hfind : findUserByEmail store email = some u)
    (hverify : verify password u.passwordHash = true)
    (hid : findUserById store u.id = some u) :
    validateSession t ((login verify now sid store email password).2) sid =
      if t < now + msPerDay then ⟨200, true, some (publicUserFields u)⟩
      else ⟨200, false, none⟩ := by
  have hstore : (login verify now sid store email password).2 =
      { store with sessions := ⟨sid, u.id, now + msPerDay, now⟩ :: store.sessions } := by
    simp [login, hfind, hverify]
  rw [hstore]
  have hfs : findSession
      { store with sessions := ⟨sid, u.id, now + msPerDay, now⟩ :: store.sessions } sid =
      some ⟨sid, u.id, now + msPerDay, now⟩ := by
    simp [findSession]
  have hid2 : findUserById
      { store with sessions := ⟨sid, u.id, now + msPerDay, now⟩ :: store.sessions } u.id =
      some u := hid
  by_cases ht : t < now + msPerDay
  · simp [validateSession, hfs, hid2, ht]
  · simp [validateSession, hfs, ht]

theorem session_valid_until_expiry_witness :
    findUserByEmail demoStore "john@example.com" = some demoUser ∧
    demoVerify "password123" demoUser.passwordHash = true ∧
    findUserById demoStore demoUser.id = some demoUser ∧
    validateSession 5 ((login demoVerify 0 "sess-1" demoStore
        "john@example.com" "password123").2) "sess-1" =
      (if 5 < 0 + msPerDay then ⟨200, true, some (publicUserFields demoUser)⟩
       else ⟨200, false, none⟩) :=
  ⟨by decide, by decide, by decide,
    session_valid_until_expiry demoVerify 0 5 "sess-1" demoStore
      "john@example.com" "password123" demoUser (by decide) (by decide) (by decide)⟩

/-! ### Claim C4: validating a never-issued session identifier -/

/-- Claim C4: for every session identifier not present in the session store,
the validate operation returns the explicit result valid: false with HTTP
status 200 and no user payload — never an error. -/
theorem validate_never_issued (now : Nat) (store : Store) (sid : String)
    (h : findSession store sid = none) :
    validateSession now store sid = ⟨200, false, none⟩ := by
  simp [validateSession, h]

theorem validate_never_issued_witness :
    findSession demoStore "invalid-session-id" = none ∧
    validateSession 0 demoStore "invalid-session-id" = ⟨200, false, none⟩ :=
  ⟨by decide, validate_never_issued 0 demoStore "invalid-session-id" (by decide)⟩

/-! ### Claim C5: user deletion cascades to sessions -/

/-- Claim C5: after the delete-user operation succeeds, validating any session
identifier that belonged to the deleted user (session identifiers being
unique) returns valid: false. -/
theorem delete_user_cascades (store : Store) (uid : Nat) (sess : Session) (now : Nat)
    (hs : sess ∈ store.sessions) (howner : sess.userId = uid)
    (hunique : ∀ s2 ∈ store.sessions, s2.id = sess.id → s2.userId = uid) :
    validateSession now (deleteUser store uid) sess.id = ⟨200, false, none⟩ := by
  have hnone : findSession (deleteUser store uid) sess.id = none := by
    rw [findSession, List.find?_eq_none]
    intro x hx
    simp only [deleteUser, List.mem_filter, bne_iff_ne, ne_eq] at hx
    obtain ⟨hmem, hne⟩ := hx
    intro hbeq
    exact hne (hunique x hmem (by simpa using hbeq))
  simp [validateSession, hnone]

theorem delete_user_cascades_witness :
    (⟨"sess-1", 1, msPerDay, 0⟩ : Session) ∈
      (⟨[demoUser], [⟨"sess-1", 1, msPerDay, 0⟩]⟩ : Store).sessions ∧
    (⟨"sess-1", 1, msPerDay, 0⟩ : Session).userId = 1 ∧
    (∀ s2 ∈ (⟨[demoUser], [⟨"sess-1", 1, msPerDay, 0⟩]⟩ : Store).sessions,
      s2.id = (⟨"sess-1", 1, msPerDay, 0⟩ : Session).id → s2.userId = 1) ∧
    validateSession 5 (deleteUser ⟨[demoUser], [⟨"sess-1", 1, msPerDay, 0⟩]⟩ 1)
      (⟨"sess-1", 1, msPerDay, 0⟩ : Session).id = ⟨200, false, none⟩ :=
  ⟨by decide, by decide, by decide,
    delete_user_cascades ⟨[demoUser], [⟨"sess-1", 1, msPerDay, 0⟩]⟩ 1
      ⟨"sess-1", 1, msPerDay, 0⟩ 5 (by decide) (by decide) (by decide)⟩

/-! ### Claim C6: creating a user with a malformed email -/

/-- Claim C6: for every create-user request carrying a malformed email, the
operation returns 422 and the user store is unchanged: no record is
persisted. -/
theorem create_user_malformed_email (hash : String → String) (now uid : Nat)
    (store : Store) (email displayName password : String)
    (h : isValidEmail email = false) :
    ((createUser hash now uid store email displayName password).1).status = 422 ∧
    (createUser hash now uid store email displayName password).2 = store := by
  constructor <;> simp [createUser, h, CreateUserResponse.status]

theorem create_user_malformed_email_witness :
    isValidEmail "invalid-email" = false ∧
    (((createUser (fun p => "h:" ++ p) 0 2 demoStore "invalid-email"
        "Test User" "testpass123").1).status = 422 ∧
      (createUser (fun p => "h:" ++ p) 0 2 demoStore "invalid-email"
        "Test User" "testpass123").2 = demoStore) :=
  ⟨by decide,
    create_user_malformed_email (fun p => "h:" ++ p) 0 2 demoStore
      "invalid-email" "Test User" "testpass123" (by decide)⟩

end ElysiaTest
